import Mathlib

/-!
# Verification of the expenseManager repository

Shallow embedding of the Python sources (`main.py`, `src/auth.py`,
`models/spam_classifier.py`) of the expenseManager repository, together with
proofs settling the frozen claims about them.

Conventions of the embedding:
* Machine-level 32-bit words are `Nat` reduced with `% 2^32` where overflow
  matters.
* Python `float` amounts are modelled as `ℚ`: every claim under scrutiny is
  about guard structure and bookkeeping, not rounding.
* File-backed state (the users CSV, the expenses CSV) is explicit: functions
  take and return the table contents.
* Python dictionaries whose keys come from a list are association lists with
  first-occurrence deduplication, matching dict-comprehension semantics.
* `st.write` / `st.error` output is an explicit event list in the return value.
-/

/-! ## SHA-256 (`hashlib.sha256(...).hexdigest()` as used by `hash_password`)

A byte-level SHA-256 over `List Nat`, each entry a byte. This embeds the one
piece of library behaviour the auth layer leans on. -/

namespace SHA256

/-- Truncate to 32 bits. -/
def w32 (n : Nat) : Nat := n % 4294967296

/-- 32-bit right rotation. -/
def rotr (n x : Nat) : Nat := w32 ((x >>> n) ||| (x <<< (32 - n)))

/-- 32-bit bitwise complement. -/
def not32 (x : Nat) : Nat := x ^^^ 4294967295

def ch (x y z : Nat) : Nat := (x &&& y) ^^^ (not32 x &&& z)

def maj (x y z : Nat) : Nat := (x &&& y) ^^^ (x &&& z) ^^^ (y &&& z)

def bigSigma0 (x : Nat) : Nat := rotr 2 x ^^^ rotr 13 x ^^^ rotr 22 x

def bigSigma1 (x : Nat) : Nat := rotr 6 x ^^^ rotr 11 x ^^^ rotr 25 x

def smallSigma0 (x : Nat) : Nat := rotr 7 x ^^^ rotr 18 x ^^^ (x >>> 3)

def smallSigma1 (x : Nat) : Nat := rotr 17 x ^^^ rotr 19 x ^^^ (x >>> 10)

/-- The 64 round constants (FIPS 180-4, in decimal). -/
def K : List Nat :=
  [1116352408, 1899447441, 3049323471, 3921009573, 961987163,
   1508970993, 2453635748, 2870763221, 3624381080, 310598401,
   607225278, 1426881987, 1925078388, 2162078206, 2614888103,
   3248222580, 3835390401, 4022224774, 264347078, 604807628,
   770255983, 1249150122, 1555081692, 1996064986, 2554220882,
   2821834349, 2952996808, 3210313671, 3336571891, 3584528711,
   113926993, 338241895, 666307205, 773529912, 1294757372,
   1396182291, 1695183700, 1986661051, 2177026350, 2456956037,
   2730485921, 2820302411, 3259730800, 3345764771, 3516065817,
   3600352804, 4094571909, 275423344, 430227734, 506948616,
   659060556, 883997877, 958139571, 1322822218, 1537002063,
   1747873779, 1955562222, 2024104815, 2227730452, 2361852424,
   2428436474, 2756734187, 3204031479, 3329325298]

/-- The initial hash value (FIPS 180-4, in decimal). -/
def H0 : List Nat :=
  [1779033703, 3144134277, 1013904242, 2773480762,
   1359893119, 2600822924, 528734635, 1541459225]

/-- Big-endian bytes of a 64-bit value (the message-length field). -/
def lenBytes (n : Nat) : List Nat :=
  [w32 (n >>> 56) % 256, (n >>> 48) % 256, (n >>> 40) % 256, (n >>> 32) % 256,
   (n >>> 24) % 256, (n >>> 16) % 256, (n >>> 8) % 256, n % 256]

/-- SHA-256 padding: append `0x80`, zeros to 56 mod 64, then the bit length
as 8 big-endian bytes. -/
def pad (msg : List Nat) : List Nat :=
  msg ++ [0x80] ++ List.replicate ((119 - msg.length % 64) % 64) 0 ++
    lenBytes (8 * msg.length)

/-- Split into 64-byte blocks (fuelled structural recursion: every step
consumes at least one element, so `l.length` steps always suffice). -/
def chunks64Aux : Nat → List Nat → List (List Nat)
  | _, [] => []
  | 0, _ :: _ => []
  | n + 1, l => l.take 64 :: chunks64Aux n (l.drop 64)

/-- Split into 64-byte blocks. -/
def chunks64 (l : List Nat) : List (List Nat) := chunks64Aux l.length l

/-- Four big-endian bytes to a 32-bit word, folded over a 64-byte block. -/
def bytesToWords : List Nat → List Nat
  | b0 :: b1 :: b2 :: b3 :: rest =>
      (b0 <<< 24 ||| b1 <<< 16 ||| b2 <<< 8 ||| b3) :: bytesToWords rest
  | _ => []

/-- Extend the 16 message words to 64 by appending `n` scheduled words. -/
def extendSchedule (w : List Nat) : Nat → List Nat
  | 0 => w
  | n + 1 =>
      let w' := extendSchedule w n
      let L := w'.length
      w' ++ [w32 (smallSigma1 (w'.getD (L - 2) 0) + w'.getD (L - 7) 0 +
                  smallSigma0 (w'.getD (L - 15) 0) + w'.getD (L - 16) 0)]

/-- One round of the compression function; the state is `[a,b,c,d,e,f,g,h]`
and `kw` the round constant paired with the scheduled word. -/
def compressStep (st : List Nat) (kw : Nat × Nat) : List Nat :=
  let a := st.getD 0 0
  let b := st.getD 1 0
  let c := st.getD 2 0
  let d := st.getD 3 0
  let e := st.getD 4 0
  let f := st.getD 5 0
  let g := st.getD 6 0
  let h := st.getD 7 0
  let t1 := w32 (h + bigSigma1 e + ch e f g + kw.1 + kw.2)
  let t2 := w32 (bigSigma0 a + maj a b c)
  [w32 (t1 + t2), a, b, c, w32 (d + t1), e, f, g]

/-- Process one 64-byte block. -/
def processBlock (H : List Nat) (block : List Nat) : List Nat :=
  let W := extendSchedule (bytesToWords block) 48
  let st := List.foldl compressStep H (K.zip W)
  (H.zip st).map fun p => w32 (p.1 + p.2)

/-- Big-endian bytes of a 32-bit word. -/
def wordBytes (x : Nat) : List Nat :=
  [(x >>> 24) % 256, (x >>> 16) % 256, (x >>> 8) % 256, x % 256]

/-- SHA-256 digest (32 bytes) of a byte string. -/
def sha256 (msg : List Nat) : List Nat :=
  (List.foldl processBlock H0 (chunks64 (pad msg))).foldr
    (fun x acc => wordBytes x ++ acc) []

/-- Lower-case hex digit. -/
def hexDigit (n : Nat) : Char :=
  if n < 10 then Char.ofNat (48 + n) else Char.ofNat (87 + n)

/-- Lower-case hex string of a byte list (`hexdigest`). -/
def hexOfBytes (bs : List Nat) : String :=
  String.mk (bs.foldr (fun b acc => hexDigit (b / 16) :: hexDigit (b % 16) :: acc) [])

/-- UTF-8 encoding of one character (`str.encode()`). -/
def utf8Char (c : Char) : List Nat :=
  let n := c.toNat
  if n < 0x80 then [n]
  else if n < 0x800 then [0xC0 ||| (n >>> 6), 0x80 ||| (n &&& 63)]
  else if n < 0x10000 then
    [0xE0 ||| (n >>> 12), 0x80 ||| ((n >>> 6) &&& 63), 0x80 ||| (n &&& 63)]
  else
    [0xF0 ||| (n >>> 18), 0x80 ||| ((n >>> 12) &&& 63),
     0x80 ||| ((n >>> 6) &&& 63), 0x80 ||| (n &&& 63)]

/-- UTF-8 bytes of a string. -/
def utf8Bytes (s : String) : List Nat :=
  s.data.foldr (fun c acc => utf8Char c ++ acc) []

end SHA256

/-! ## `hash_password` (auth.py lines 7-11, main.py lines 11-12) -/

/-- `hash_password(password)`: the SHA-256 hex digest of the UTF-8 encoded
password, exactly `hashlib.sha256(password.encode()).hexdigest()`. -/
def hash_password (password : String) : String :=
  SHA256.hexOfBytes (SHA256.sha256 (SHA256.utf8Bytes password))

/-! ## The users table (auth.py / main.py)

The users CSV is modelled two ways, at the level each claim needs:
* as a well-formed table `List UserRow` for `authenticate` / `register_user`,
  which operate on the `username` / `password` columns of a loaded frame;
* as a raw `Frame` (column names plus rows) for `load_users`, whose claim is
  about the exceptional path of `pd.read_csv`.
-/

/-- One row of the users CSV: a username and a stored password hash. -/
structure UserRow where
  username : String
  password : String
deriving DecidableEq, Repr

/-- `authenticate(username, password)` (auth.py lines 41-53, main.py lines
37-44): hash the entered password and scan the loaded users table for a row
matching on both columns; `True` exactly when the filtered frame is
non-empty. -/
def authenticate (users : List UserRow) (username password : String) : Bool :=
  let hashed_password := hash_password password
  let user := users.filter fun r =>
    r.username == username && r.password == hashed_password
  !user.isEmpty

/-- `save_user(username, password)` (auth.py lines 33-39): append one row with
the hashed password to the users file. -/
def save_user (users : List UserRow) (username password : String) :
    List UserRow :=
  users ++ [⟨username, hash_password password⟩]

/-- `register_user(username, password)` (auth.py lines 55-63, main.py lines
46-51): refuse when the username is already present in the `username` column,
otherwise save the new user. Returns the flag the Python function returns
together with the resulting users file contents. -/
def register_user (users : List UserRow) (username password : String) :
    Bool × List UserRow :=
  if (users.map UserRow.username).contains username then
    (false, users)
  else
    (true, save_user users username password)

/-- A raw CSV frame: its column names and rows, as `pd.read_csv` delivers
them. -/
structure Frame where
  columns : List String
  rows : List (List String)
deriving DecidableEq, Repr

/-- `pd.DataFrame(columns=["username", "password"])`: the empty users frame. -/
def emptyUsersFrame : Frame := ⟨["username", "password"], []⟩

/-- An output event of the Streamlit UI; numeric interpolations are carried
as their values rather than as formatted text. -/
inductive Output where
  | errorMsg (msg : String)
  | wrote (msg : String)
  | insufficientBalance
  | credited (amount balance : ℚ)
  | debited (amount balance : ℚ)
deriving DecidableEq, Repr

/-- The outcome of `pd.read_csv(users_file)`: either the parsed frame or the
message of the exception it raised. -/
def ReadResult := Except String Frame

/-- `load_users()` (auth.py lines 21-31): return the parsed frame, or on any
exception report the error and return an empty frame with the `username` and
`password` columns. Always returns a frame. -/
def auth_load_users (r : Except String Frame) : Frame × List Output :=
  match r with
  | .ok users => (users, [])
  | .error e => (emptyUsersFrame, [.errorMsg ("Error loading users: " ++ e)])

/-- `load_users()` (main.py lines 21-30): like `auth_load_users` but also
replaces a frame missing the `username` or `password` column by the empty
frame, with an error message. -/
def main_load_users (r : Except String Frame) : Frame × List Output :=
  match r with
  | .ok users =>
      if !(users.columns.contains "username") ||
         !(users.columns.contains "password") then
        (emptyUsersFrame,
         [.errorMsg "CSV file must contain 'username' and 'password' columns."])
      else (users, [])
  | .error e => (emptyUsersFrame, [.errorMsg ("Error loading users: " ++ e)])

/-! ## The transaction ledger (`UserAccount`)

`main.py` lines 77-100 and `models/spam_classifier.py` lines 84-98 each define
a `UserAccount`. Transaction rows are Python dict literals; they are embedded
as association lists so that the set of fields of a row is a first-class
fact. -/

/-- A Python value stored in a transaction dict: a string or a number. -/
inductive TValue where
  | s (v : String)
  | q (v : ℚ)
deriving DecidableEq, Repr

/-- A transaction dict, key order as written in the source. -/
abbrev TxnRecord := List (String × TValue)

/-- The keys of a transaction record. -/
def recordKeys (r : TxnRecord) : List String := r.map Prod.fst

namespace Main

/-- `UserAccount` of main.py: a balance, the in-memory transactions frame, and
the contents of `data/expenses.csv` (`none` when the file does not exist). -/
structure UserAccount where
  balance : ℚ
  transactions : List TxnRecord
  csvFile : Option (List TxnRecord)
deriving DecidableEq, Repr

/-- `UserAccount.__init__` (main.py lines 78-80): start from the given balance
(default 10000.0) and load the transactions from `data/expenses.csv` when that
file exists, else an empty frame. -/
def UserAccount.init (initial_balance : ℚ)
    (csv : Option (List TxnRecord)) : UserAccount :=
  { balance := initial_balance
    transactions := csv.getD []
    csvFile := csv }

/-- `save_transactions` (main.py lines 99-100): write the transactions frame
to `data/expenses.csv`. -/
def UserAccount.save_transactions (a : UserAccount) : UserAccount :=
  { a with csvFile := some a.transactions }

/-- The dict literal appended by `credit` (main.py line 84). -/
def creditRecord (amount : ℚ) (today description : String) : TxnRecord :=
  [("type", .s "credit"), ("amount", .q amount), ("category", .s "Credit"),
   ("date", .s today), ("description", .s description)]

/-- The dict literal appended by `debit` (main.py line 92). -/
def debitRecord (amount : ℚ) (today description : String) : TxnRecord :=
  [("type", .s "debit"), ("amount", .q amount), ("category", .s "Debit"),
   ("date", .s today), ("description", .s description)]

/-- `credit` (main.py lines 82-87): add to the balance, append one transaction
row, save, and report the credit. `today` is `str(date.today())`. -/
def UserAccount.credit (a : UserAccount) (amount : ℚ) (today : String)
    (description : String := "Credit") : UserAccount × List Output :=
  let balance := a.balance + amount
  let a' := UserAccount.save_transactions
    { a with balance := balance
             transactions := a.transactions ++ [creditRecord amount today description] }
  (a', [.credited amount balance])

/-- `debit` (main.py lines 89-97): when the balance covers the amount,
subtract it, append one transaction row, save and report; otherwise leave the
account untouched and write `Insufficient balance!`. -/
def UserAccount.debit (a : UserAccount) (amount : ℚ) (today : String)
    (description : String := "Debit") : UserAccount × List Output :=
  if amount ≤ a.balance then
    let balance := a.balance - amount
    let a' := UserAccount.save_transactions
      { a with balance := balance
               transactions := a.transactions ++ [debitRecord amount today description] }
    (a', [.debited amount balance])
  else
    (a, [.insufficientBalance])

end Main

namespace SC

/-- `UserAccount` of spam_classifier.py (lines 84-87): a balance and a plain
transaction list. -/
structure UserAccount where
  balance : ℚ
  transactions : List TxnRecord
deriving DecidableEq, Repr

/-- `UserAccount.__init__` (spam_classifier.py lines 85-87). -/
def UserAccount.init (initial_balance : ℚ) : UserAccount :=
  { balance := initial_balance, transactions := [] }

/-- `credit` (spam_classifier.py lines 89-91). -/
def UserAccount.credit (a : UserAccount) (amount : ℚ) :
    UserAccount × List Output :=
  ({ balance := a.balance + amount
     transactions := a.transactions ++ [[("type", .s "credit"), ("amount", .q amount)]] },
   [])

/-- `debit` (spam_classifier.py lines 93-98): guarded by
`self.balance >= amount`, else `Insufficient balance!`. -/
def UserAccount.debit (a : UserAccount) (amount : ℚ) :
    UserAccount × List Output :=
  if amount ≤ a.balance then
    ({ balance := a.balance - amount
       transactions := a.transactions ++ [[("type", .s "debit"), ("amount", .q amount)]] },
     [])
  else
    (a, [.insufficientBalance])

end SC

namespace Main

/-- A ledger operation: one call to `credit` or to `debit`. -/
inductive Op where
  | credit (amount : ℚ)
  | debit (amount : ℚ)
deriving DecidableEq, Repr

/-- The amount carried by an operation. -/
def Op.amount : Op → ℚ
  | .credit a => a
  | .debit a => a

/-- Run a finite sequence of ledger operations on an account. -/
def runOps (a : UserAccount) (today : String) : List Op → UserAccount
  | [] => a
  | .credit amt :: ops => runOps (a.credit amt today).1 today ops
  | .debit amt :: ops => runOps (a.debit amt today).1 today ops

/-- The sum of all credited amounts in a sequence of operations. -/
def creditSum : List Op → ℚ
  | [] => 0
  | .credit amt :: ops => amt + creditSum ops
  | .debit _ :: ops => creditSum ops

/-- The sum of the amounts of the debits that succeed (those whose guard
`balance >= amount` holds at the moment they run), starting from balance
`bal`. -/
def succDebitSum (bal : ℚ) : List Op → ℚ
  | [] => 0
  | .credit amt :: ops => succDebitSum (bal + amt) ops
  | .debit amt :: ops =>
      if amt ≤ bal then amt + succDebitSum (bal - amt) ops
      else succDebitSum bal ops

end Main

namespace SC

/-- Run a finite sequence of ledger operations on a spam_classifier.py
account; the operation vocabulary is the one shared with main.py's class. -/
def runOps (a : UserAccount) : List Main.Op → UserAccount
  | [] => a
  | .credit amt :: ops => runOps (a.credit amt).1 ops
  | .debit amt :: ops => runOps (a.debit amt).1 ops

end SC

/-! ## Bill splitting (main.py lines 294-347)

Groups live in `st.session_state.groups`; a group is a member list and a
transaction list. Python dicts built by comprehension over the member list are
association lists keyed by the members in first-occurrence order. -/

/-- One recorded group transaction (main.py lines 268-274). -/
structure GroupTransaction where
  payer : String
  amount : ℚ
  category : String
  date : String
  split_amount : ℚ
deriving DecidableEq, Repr

/-- A group (`group_data`): its members and its transactions (main.py lines
244-247). -/
structure GroupData where
  members : List String
  transactions : List GroupTransaction
deriving DecidableEq, Repr

/-- First-occurrence deduplication, as dict insertion order keeps it. -/
def pyDedupAux : List String → List String → List String
  | _, [] => []
  | seen, x :: xs =>
      if x ∈ seen then pyDedupAux seen xs
      else x :: pyDedupAux (x :: seen) xs

/-- First-occurrence deduplication of a list. -/
def pyDedup (l : List String) : List String := pyDedupAux [] l

/-- `{member: 0 for member in group_data["members"] if member != user}`. -/
def initMemberDict (members : List String) (user : String) :
    List (String × ℚ) :=
  (pyDedup (members.filter (· ≠ user))).map fun m => (m, 0)

/-- One iteration of the `for transaction in ...` loop of
`calculate_owed_by_group_members` (main.py lines 328-333). -/
def owedStep (user : String) (owed : List (String × ℚ))
    (t : GroupTransaction) : List (String × ℚ) :=
  if t.payer = user then
    owed.map fun kv => (kv.1, kv.2 + t.split_amount)
  else if t.payer ∈ owed.map Prod.fst then
    owed.map fun kv =>
      if kv.1 = t.payer then (kv.1, kv.2 - t.split_amount) else kv
  else owed

/-- `calculate_owed_by_group_members(group_name)` (main.py lines 323-335):
build the zero dict over the other members, walk the transactions, and keep
the strictly positive entries. -/
def calculate_owed_by_group_members (g : GroupData) (user : String) :
    List (String × ℚ) :=
  let owed := g.transactions.foldl (owedStep user) (initMemberDict g.members user)
  owed.filter fun kv => 0 < kv.2

/-- One iteration of the `for transaction in ...` loop of
`calculate_user_debt` (main.py lines 343-345). `debt[payer] += ...` raises
`KeyError` when the payer is not a key of the dict. -/
def debtStep (g : GroupData) (user : String)
    (acc : Except String (List (String × ℚ))) (t : GroupTransaction) :
    Except String (List (String × ℚ)) :=
  acc.bind fun debt =>
    if t.payer ≠ user ∧ user ∈ g.members then
      if t.payer ∈ debt.map Prod.fst then
        .ok (debt.map fun kv =>
          if kv.1 = t.payer then (kv.1, kv.2 + t.split_amount) else kv)
      else .error "KeyError"
    else .ok debt

/-- `calculate_user_debt(group_name)` (main.py lines 338-347); `.error`
models an uncaught `KeyError` escaping the loop. -/
def calculate_user_debt (g : GroupData) (user : String) :
    Except String (List (String × ℚ)) :=
  (g.transactions.foldl (debtStep g user) (.ok (initMemberDict g.members user))).map
    fun debt => debt.filter fun kv => 0 < kv.2

/-! ## Spam classifier (models/spam_classifier.py)

The pickled model, the pickled vectorizer, the NLTK stopword list and the
Porter stemmer are external artefacts, so they enter as parameters; the code
of `preprocess_message`, `classify_message` and
`extract_transaction_details` is embedded. Character classes (`\\d`, `\\s`,
`\\w`) are taken at their ASCII core. -/

/-- Python `\s` (ASCII): the whitespace characters. -/
def isSpaceChar (c : Char) : Bool :=
  c == ' ' || c == '\t' || c == '\n' || c == '\r' ||
  c == Char.ofNat 11 || c == Char.ofNat 12

/-- Python `\w` (ASCII core): letters, digits and underscore. -/
def isWordChar (c : Char) : Bool := c.isAlphanum || c == '_'

/-- Length of the match of `http\S+|www.\S+` at the head of the list, if
any: the `http` alternative is tried first, `\S+` is maximal, and the `.`
after `www` matches anything but a newline. -/
def urlMatchLen (cs : List Char) : Option Nat :=
  match cs with
  | 'h' :: 't' :: 't' :: 'p' :: rest =>
      let ns := rest.takeWhile fun c => !isSpaceChar c
      if ns.isEmpty then none else some (4 + ns.length)
  | 'w' :: 'w' :: 'w' :: c :: rest =>
      if c == '\n' then none
      else
        let ns := rest.takeWhile fun c => !isSpaceChar c
        if ns.isEmpty then none else some (4 + ns.length)
  | _ => none

/-- `re.sub(r'http\S+|www.\S+', '', message)`: left-to-right scan deleting
each non-overlapping match (fuelled structural recursion; a match consumes at
least one character, so `l.length` steps suffice). -/
def scrubUrlsAux : Nat → List Char → List Char
  | _, [] => []
  | 0, l => l
  | n + 1, c :: cs =>
      match urlMatchLen (c :: cs) with
      | some m => scrubUrlsAux n ((c :: cs).drop m)
      | none => c :: scrubUrlsAux n cs

/-- Remove every `http\S+|www.\S+` match from a character list. -/
def scrubUrls (l : List Char) : List Char := scrubUrlsAux l.length l

/-- Python `str.split()`: split on whitespace runs, dropping empty pieces.
The first argument accumulates the current word, reversed. -/
def splitWsAux : List Char → List Char → List (List Char)
  | cur, [] => if cur.isEmpty then [] else [cur.reverse]
  | cur, c :: cs =>
      if isSpaceChar c then
        if cur.isEmpty then splitWsAux [] cs
        else cur.reverse :: splitWsAux [] cs
      else splitWsAux (c :: cur) cs

/-- Python `str.split()` on a character list. -/
def splitWs (cs : List Char) : List (List Char) := splitWsAux [] cs

/-- `preprocess_message(message)` (spam_classifier.py lines 42-49): drop URLs,
digits and punctuation, lower-case, tokenize, drop stopwords, stem, and join
with single spaces. `ps` is the Porter stemmer, `stop_words` the NLTK
stopword list. -/
def preprocess_message (ps : String → String) (stop_words : List String)
    (message : String) : String :=
  let m1 := scrubUrls message.data
  let m2 := m1.filter fun c => !c.isDigit
  let m3 := m2.filter fun c => isWordChar c || isSpaceChar c
  let m4 := m3.map Char.toLower
  let tokens := (splitWs m4).map String.mk
  let tokens := (tokens.filter fun w => !stop_words.contains w).map ps
  String.intercalate " " tokens

/-- `classify_message(message)` (spam_classifier.py lines 52-62): error text
when the model or the vectorizer is missing; otherwise `'spam'` exactly when
the model predicts `1` on the vectorized preprocessed message, else `'ham'`.
`α` is the vector type produced by `vectorizer.transform`. -/
def classify_message (α : Type) (model : Option (α → Nat))
    (vectorizer : Option (String → α)) (ps : String → String)
    (stop_words : List String) (message : String) : String :=
  match model, vectorizer with
  | some m, some v =>
      if m (v (preprocess_message ps stop_words message)) = 1 then "spam"
      else "ham"
  | _, _ => "Error: Model or vectorizer not loaded."

/-- `classify_message` instrumented with the list of vectors passed to
`model.predict`, to count prediction calls. -/
def classify_message_run (α : Type) (model : Option (α → Nat))
    (vectorizer : Option (String → α)) (ps : String → String)
    (stop_words : List String) (message : String) : String × List α :=
  match model, vectorizer with
  | some m, some v =>
      let x := v (preprocess_message ps stop_words message)
      (if m x = 1 then "spam" else "ham", [x])
  | _, _ => ("Error: Model or vectorizer not loaded.", [])

/-! ### Transaction detection (spam_classifier.py lines 36-39 and 65-81) -/

/-- Does `needle` start the list `hay`? -/
def startsWithL : List Char → List Char → Bool
  | _, [] => true
  | [], _ :: _ => false
  | h :: hs, n :: ns => h == n && startsWithL hs ns

/-- Does `needle` occur in `hay` as a contiguous substring? -/
def containsL : List Char → List Char → Bool
  | [], n => n.isEmpty
  | h :: hs, n => startsWithL (h :: hs) n || containsL hs n

/-- Truthiness of `re.search(pat, msg)` for a literal alternative `pat` of an
`IGNORECASE` pattern: case-insensitive substring occurrence. -/
def searchCI (pat msg : String) : Bool :=
  containsL (msg.data.map Char.toLower) (pat.data.map Char.toLower)

/-- `debit_pattern.search(message)` is truthy:
`re.compile(r'debited|withdrawal|debited from your account|dr', re.IGNORECASE)`
matches somewhere exactly when one of its alternatives occurs. -/
def debitMatches (message : String) : Bool :=
  searchCI "debited" message || searchCI "withdrawal" message ||
  searchCI "debited from your account" message || searchCI "dr" message

/-- `credit_pattern.search(message)` is truthy:
`re.compile(r'credited|deposit|credited to your account|cr', re.IGNORECASE)`. -/
def creditMatches (message : String) : Bool :=
  searchCI "credited" message || searchCI "deposit" message ||
  searchCI "credited to your account" message || searchCI "cr" message

/-- Python `\d` (ASCII) or a comma: the class `[\d,]`. -/
def isDigitComma (c : Char) : Bool := c.isDigit || c == ','

/-- Group 1 of a match of `([\d,]+\.\d{1,2})` at the head of the list, if
any. The maximal `[\d,]` run must be non-empty and be followed by `.` and at
least one digit (shrinking the greedy run can never make `\.` match, since
the class contains no dot); `\d{1,2}` then takes two digits when it can. -/
def matchAmountBody (cs : List Char) : Option (List Char) :=
  let run := cs.takeWhile isDigitComma
  if run.isEmpty then none
  else
    match cs.dropWhile isDigitComma with
    | '.' :: d1 :: d2 :: _ =>
        if d1.isDigit then
          some (run ++ ['.', d1] ++ (if d2.isDigit then [d2] else []))
        else none
    | ['.', d1] => if d1.isDigit then some (run ++ ['.', d1]) else none
    | _ => none

/-- Group 1 of a match of `INR\s?([\d,]+\.\d{1,2})` at the head of the list:
literal `INR` (the pattern is compiled without `IGNORECASE`), then the
greedy optional whitespace with its empty fallback, then the group. -/
def matchAmountAt : List Char → Option (List Char)
  | 'I' :: 'N' :: 'R' :: rest =>
      match rest with
      | c :: rest' =>
          if isSpaceChar c then
            match matchAmountBody rest' with
            | some g => some g
            | none => matchAmountBody rest
          else matchAmountBody rest
      | [] => none
  | _ => none

/-- `amount_pattern.search(message)`: group 1 of the leftmost match of
`INR\s?([\d,]+\.\d{1,2})`, scanning start positions left to right. -/
def searchAmount : List Char → Option (List Char)
  | [] => none
  | c :: cs =>
      match matchAmountAt (c :: cs) with
      | some g => some g
      | none => searchAmount cs

/-- Decimal digits to a natural number. -/
def digitsToNat (ds : List Char) : Nat :=
  ds.foldl (fun acc c => 10 * acc + (c.toNat - 48)) 0

/-- `float(amount_str.replace(',', '').strip())` on a captured group: strip
the commas and read `<digits>.<digits>` as an exact rational. -/
def parseAmount (g : List Char) : ℚ :=
  let g' := g.filter fun c => c ≠ ','
  let intPart := g'.takeWhile fun c => c ≠ '.'
  let fracPart := (g'.dropWhile fun c => c ≠ '.').drop 1
  digitsToNat intPart + digitsToNat fracPart / 10 ^ fracPart.length

/-- `extract_transaction_details(message)` (spam_classifier.py lines 65-81):
the debit check first, then the credit check, else no type; the amount from
the first `INR` amount match, else `0.0`. -/
def extract_transaction_details (message : String) : Option String × ℚ :=
  let transaction_type :=
    if debitMatches message then some "debit"
    else if creditMatches message then some "credit"
    else none
  let amount :=
    match searchAmount message.data with
    | some g => parseAmount g
    | none => 0
  (transaction_type, amount)

/-! ## Claims about the authentication layer -/

/-- C1: `authenticate` returns `True` if and only if some row of the stored
users table has its `username` column equal to the given username and its
`password` column equal to the SHA-256 hex digest of the given password;
otherwise it returns `False`. -/
theorem authenticate_iff_matching_row (users : List UserRow)
    (username password : String) :
    authenticate users username password = true ↔
      ∃ r ∈ users, r.username = username ∧ r.password = hash_password password := by
  simp [authenticate, List.isEmpty_iff, List.filter_eq_nil_iff]

/-- C2: registering an existing username returns `False` and leaves the users
file unchanged; registering a fresh username returns `True` and appends
exactly one row, the username with the hashed password, after the untouched
pre-existing rows. -/
theorem register_user_spec (users : List UserRow) (username password : String) :
    (username ∈ users.map UserRow.username →
      register_user users username password = (false, users)) ∧
    (username ∉ users.map UserRow.username →
      register_user users username password =
        (true, users ++ [⟨username, hash_password password⟩])) := by
  constructor <;> intro h <;> simp [register_user, save_user, h]

/-- Witness for C2: one taken username is refused with the file unchanged,
one fresh username is appended. -/
theorem register_user_spec_witness :
    ("alice" ∈ ([⟨"alice", "h0"⟩] : List UserRow).map UserRow.username ∧
      register_user [⟨"alice", "h0"⟩] "alice" "pw" = (false, [⟨"alice", "h0"⟩])) ∧
    ("bob" ∉ ([⟨"alice", "h0"⟩] : List UserRow).map UserRow.username ∧
      register_user [⟨"alice", "h0"⟩] "bob" "pw" =
        (true, [⟨"alice", "h0"⟩, ⟨"bob", hash_password "pw"⟩])) :=
  ⟨⟨by decide, (register_user_spec [⟨"alice", "h0"⟩] "alice" "pw").1 (by decide)⟩,
   ⟨by decide, (register_user_spec [⟨"alice", "h0"⟩] "bob" "pw").2 (by decide)⟩⟩

/-- C6: when reading the users CSV raises any exception, both versions of
`load_users` report the error and return the empty frame, whose columns are
exactly `username` and `password`; the exception never escapes and no retry
happens (the functions are total on the read outcome). -/
theorem load_users_error_path (e : String) :
    auth_load_users (Except.error e) =
      (emptyUsersFrame, [Output.errorMsg ("Error loading users: " ++ e)]) ∧
    main_load_users (Except.error e) =
      (emptyUsersFrame, [Output.errorMsg ("Error loading users: " ++ e)]) ∧
    emptyUsersFrame.columns = ["username", "password"] :=
  ⟨rfl, rfl, rfl⟩

/-- C7: `hash_password` is deterministic — its result depends on nothing but
the password string, so two invocations on equal passwords return the same
SHA-256 hex digest. -/
theorem hash_password_deterministic (p q : String) (h : p = q) :
    hash_password p = hash_password q := congrArg hash_password h

/-- Witness for C7: two invocations on the literal password `"secret"`. -/
theorem hash_password_deterministic_witness :
    hash_password "secret" = hash_password "secret" :=
  hash_password_deterministic "secret" "secret" rfl

/-! ## Claims about the ledger -/

/-- C3: in both `UserAccount` classes, a debit with the balance strictly
below the amount is a guarded no-op — the account (balance, transaction list
and, in main.py, the CSV) is returned unchanged and exactly the
`Insufficient balance!` message is emitted — while a covered debit lowers the
balance by exactly the amount and appends exactly one transaction record. -/
theorem debit_guard (a : Main.UserAccount) (b : SC.UserAccount) (amt : ℚ)
    (today desc : String) :
    (a.balance < amt →
      a.debit amt today desc = (a, [Output.insufficientBalance])) ∧
    (amt ≤ a.balance →
      (a.debit amt today desc).1.balance = a.balance - amt ∧
      (a.debit amt today desc).1.transactions =
        a.transactions ++ [Main.debitRecord amt today desc]) ∧
    (b.balance < amt → b.debit amt = (b, [Output.insufficientBalance])) ∧
    (amt ≤ b.balance →
      (b.debit amt).1.balance = b.balance - amt ∧
      (b.debit amt).1.transactions =
        b.transactions ++ [[("type", TValue.s "debit"), ("amount", TValue.q amt)]]) := by
  refine ⟨fun h => ?_, fun h => ?_, fun h => ?_, fun h => ?_⟩
  · simp [Main.UserAccount.debit, not_le.mpr h]
  · simp [Main.UserAccount.debit, Main.UserAccount.save_transactions, h]
  · simp [SC.UserAccount.debit, not_le.mpr h]
  · simp [SC.UserAccount.debit, h]

/-- Witness for C3: an uncovered debit bounces on both classes, a covered
debit books on both classes. -/
theorem debit_guard_witness :
    ((Main.UserAccount.init 0 none).balance < 5 ∧
      Main.UserAccount.debit (Main.UserAccount.init 0 none) 5 "2024-01-01" "Debit" =
        (Main.UserAccount.init 0 none, [Output.insufficientBalance])) ∧
    ((4 : ℚ) ≤ (Main.UserAccount.init 10 none).balance ∧
      (Main.UserAccount.debit (Main.UserAccount.init 10 none) 4 "2024-01-01" "Debit").1.balance =
        (Main.UserAccount.init 10 none).balance - 4 ∧
      (Main.UserAccount.debit (Main.UserAccount.init 10 none) 4 "2024-01-01" "Debit").1.transactions =
        (Main.UserAccount.init 10 none).transactions ++ [Main.debitRecord 4 "2024-01-01" "Debit"]) ∧
    ((SC.UserAccount.init 0).balance < 5 ∧
      SC.UserAccount.debit (SC.UserAccount.init 0) 5 =
        (SC.UserAccount.init 0, [Output.insufficientBalance])) ∧
    ((4 : ℚ) ≤ (SC.UserAccount.init 10).balance ∧
      (SC.UserAccount.debit (SC.UserAccount.init 10) 4).1.balance =
        (SC.UserAccount.init 10).balance - 4 ∧
      (SC.UserAccount.debit (SC.UserAccount.init 10) 4).1.transactions =
        (SC.UserAccount.init 10).transactions ++
          [[("type", TValue.s "debit"), ("amount", TValue.q 4)]]) :=
  ⟨⟨by decide,
    (debit_guard (Main.UserAccount.init 0 none) (SC.UserAccount.init 0) 5
      "2024-01-01" "Debit").1 (by decide)⟩,
   ⟨by decide,
    (debit_guard (Main.UserAccount.init 10 none) (SC.UserAccount.init 10) 4
      "2024-01-01" "Debit").2.1 (by decide)⟩,
   ⟨by decide,
    (debit_guard (Main.UserAccount.init 0 none) (SC.UserAccount.init 0) 5
      "2024-01-01" "Debit").2.2.1 (by decide)⟩,
   ⟨by decide,
    (debit_guard (Main.UserAccount.init 10 none) (SC.UserAccount.init 10) 4
      "2024-01-01" "Debit").2.2.2 (by decide)⟩⟩

/-- C4 counterexample: the row appended by `credit` on main.py's
`UserAccount` carries a `category` field (and a `description` field), so its
field list is not `type`/`amount`/`date`. -/
theorem credit_row_not_three_fields :
    (Main.UserAccount.credit (Main.UserAccount.init 0 none) 5 "2024-01-01"
        "Credit").1.transactions = [Main.creditRecord 5 "2024-01-01" "Credit"] ∧
    recordKeys (Main.creditRecord 5 "2024-01-01" "Credit") ≠
      ["type", "amount", "date"] ∧
    "category" ∈ recordKeys (Main.creditRecord 5 "2024-01-01" "Credit") ∧
    "category" ∉ ["type", "amount", "date"] := by
  refine ⟨?_, by decide, by decide, by decide⟩
  simp [Main.UserAccount.credit, Main.UserAccount.save_transactions,
    Main.UserAccount.init]

/-- C4 (amended): every transaction row that main.py's `credit` or `debit`
appends is a flat record with exactly the fields `type`, `amount`,
`category`, `date`, `description`, in that order. -/
theorem ledger_row_fields (a : Main.UserAccount) (amt : ℚ)
    (today desc : String) :
    (∀ r ∈ (a.credit amt today desc).1.transactions,
      r ∈ a.transactions ∨
        recordKeys r = ["type", "amount", "category", "date", "description"]) ∧
    (∀ r ∈ (a.debit amt today desc).1.transactions,
      r ∈ a.transactions ∨
        recordKeys r = ["type", "amount", "category", "date", "description"]) := by
  constructor
  · intro r hr
    simp [Main.UserAccount.credit, Main.UserAccount.save_transactions] at hr
    rcases hr with hr | hr
    · exact Or.inl hr
    · exact Or.inr (by simp [hr, Main.creditRecord, recordKeys])
  · intro r hr
    by_cases h : amt ≤ a.balance
    · simp [Main.UserAccount.debit, Main.UserAccount.save_transactions, h] at hr
      rcases hr with hr | hr
      · exact Or.inl hr
      · exact Or.inr (by simp [hr, Main.debitRecord, recordKeys])
    · simp [Main.UserAccount.debit, h] at hr
      exact Or.inl hr

/-- Witness for C4: the rows appended by a concrete credit and a concrete
covered debit have the five fields. -/
theorem ledger_row_fields_witness :
    (Main.creditRecord 5 "2024-01-01" "Credit" ∈
        (Main.UserAccount.credit (Main.UserAccount.init 0 none) 5 "2024-01-01"
          "Credit").1.transactions ∧
      (Main.creditRecord 5 "2024-01-01" "Credit" ∈
          (Main.UserAccount.init 0 none).transactions ∨
        recordKeys (Main.creditRecord 5 "2024-01-01" "Credit") =
          ["type", "amount", "category", "date", "description"])) ∧
    (Main.debitRecord 4 "2024-01-01" "Debit" ∈
        (Main.UserAccount.debit (Main.UserAccount.init 10 none) 4 "2024-01-01"
          "Debit").1.transactions ∧
      (Main.debitRecord 4 "2024-01-01" "Debit" ∈
          (Main.UserAccount.init 10 none).transactions ∨
        recordKeys (Main.debitRecord 4 "2024-01-01" "Debit") =
          ["type", "amount", "category", "date", "description"])) :=
  ⟨⟨by decide,
    (ledger_row_fields (Main.UserAccount.init 0 none) 5 "2024-01-01" "Credit").1
      (Main.creditRecord 5 "2024-01-01" "Credit") (by decide)⟩,
   ⟨by decide,
    (ledger_row_fields (Main.UserAccount.init 10 none) 4 "2024-01-01" "Debit").2
      (Main.debitRecord 4 "2024-01-01" "Debit") (by decide)⟩⟩

/-! ## Claims about the classifier -/

/-- C5: with the model and vectorizer loaded, `classify_message` returns
`'spam'` exactly when the model's prediction on the vectorized preprocessed
message equals `1` and `'ham'` otherwise, so the label is always one of the
two, and the instrumented run passes exactly one vector to the model. -/
theorem classify_message_spec (α : Type) (m : α → Nat) (v : String → α)
    (ps : String → String) (sw : List String) (msg : String) :
    (classify_message α (some m) (some v) ps sw msg = "spam" ↔
      m (v (preprocess_message ps sw msg)) = 1) ∧
    (classify_message α (some m) (some v) ps sw msg = "ham" ↔
      ¬m (v (preprocess_message ps sw msg)) = 1) ∧
    (classify_message α (some m) (some v) ps sw msg = "spam" ∨
      classify_message α (some m) (some v) ps sw msg = "ham") ∧
    (classify_message_run α (some m) (some v) ps sw msg).2 =
      [v (preprocess_message ps sw msg)] ∧
    (classify_message_run α (some m) (some v) ps sw msg).1 =
      classify_message α (some m) (some v) ps sw msg := by
  by_cases h : m (v (preprocess_message ps sw msg)) = 1 <;>
    simp [classify_message, classify_message_run, h]

/-- C8: `extract_transaction_details` labels a message `debit` whenever the
debit pattern matches (taking precedence over the credit pattern), `credit`
when only the credit pattern matches, and no type otherwise; the amount is
the parsed group of the leftmost `INR\s?([\d,]+\.\d{1,2})` match with commas
stripped, and exactly `0.0` when there is none. -/
theorem extract_transaction_details_spec (msg : String) :
    (debitMatches msg = true →
      (extract_transaction_details msg).1 = some "debit") ∧
    (debitMatches msg = false → creditMatches msg = true →
      (extract_transaction_details msg).1 = some "credit") ∧
    (debitMatches msg = false → creditMatches msg = false →
      (extract_transaction_details msg).1 = none) ∧
    (∀ g, searchAmount msg.data = some g →
      (extract_transaction_details msg).2 = parseAmount g) ∧
    (searchAmount msg.data = none → (extract_transaction_details msg).2 = 0) := by
  refine ⟨fun h => ?_, fun h h' => ?_, fun h h' => ?_, fun g h => ?_, fun h => ?_⟩ <;>
    simp [extract_transaction_details, h]
  · simp [h']
  · simp [h']

/-- Witness for C8: a message matching both patterns is a debit, a
credit-only message is a credit, an inert message has no type and amount 0,
and the amount of the first message is its leftmost `INR` match parsed. -/
theorem extract_transaction_details_spec_witness :
    (debitMatches "debited and credited INR 1,234.56" = true ∧
      (extract_transaction_details "debited and credited INR 1,234.56").1 =
        some "debit") ∧
    (debitMatches "money deposit of INR 9.75" = false ∧
      creditMatches "money deposit of INR 9.75" = true ∧
      (extract_transaction_details "money deposit of INR 9.75").1 =
        some "credit") ∧
    (debitMatches "hello there" = false ∧ creditMatches "hello there" = false ∧
      (extract_transaction_details "hello there").1 = none) ∧
    (searchAmount "debited and credited INR 1,234.56".data =
        some "1,234.56".data ∧
      (extract_transaction_details "debited and credited INR 1,234.56").2 =
        parseAmount "1,234.56".data) ∧
    (searchAmount "hello there".data = none ∧
      (extract_transaction_details "hello there").2 = 0) :=
  ⟨⟨by decide,
    (extract_transaction_details_spec "debited and credited INR 1,234.56").1
      (by decide)⟩,
   ⟨by decide, by decide,
    (extract_transaction_details_spec "money deposit of INR 9.75").2.1
      (by decide) (by decide)⟩,
   ⟨by decide, by decide,
    (extract_transaction_details_spec "hello there").2.2.1 (by decide)
      (by decide)⟩,
   ⟨by decide,
    (extract_transaction_details_spec "debited and credited INR 1,234.56").2.2.2.1
      "1,234.56".data (by decide)⟩,
   ⟨by decide,
    (extract_transaction_details_spec "hello there").2.2.2.2 (by decide)⟩⟩

/-! ## The balance invariant -/

/-- The balance after a run of ledger operations is the starting balance plus
all credits minus the debits whose guard held. -/
lemma runOps_balance (today : String) (ops : List Main.Op) :
    ∀ a : Main.UserAccount,
      (Main.runOps a today ops).balance =
        a.balance + Main.creditSum ops - Main.succDebitSum a.balance ops := by
  induction ops with
  | nil => intro a; simp [Main.runOps, Main.creditSum, Main.succDebitSum]
  | cons op ops ih =>
    intro a
    cases op with
    | credit amt =>
      simp only [Main.runOps, Main.creditSum, Main.succDebitSum, ih,
        Main.UserAccount.credit, Main.UserAccount.save_transactions]
      ring
    | debit amt =>
      by_cases h : amt ≤ a.balance
      · simp only [Main.runOps, Main.creditSum, Main.succDebitSum, ih,
          Main.UserAccount.debit, Main.UserAccount.save_transactions, if_pos h]
        ring
      · simp only [Main.runOps, Main.creditSum, Main.succDebitSum, ih,
          Main.UserAccount.debit, if_neg h]

/-- With non-negative amounts, a run of ledger operations keeps a
non-negative balance non-negative. -/
lemma runOps_balance_nonneg (today : String) (ops : List Main.Op) :
    ∀ a : Main.UserAccount, 0 ≤ a.balance →
      (∀ op ∈ ops, 0 ≤ op.amount) →
      0 ≤ (Main.runOps a today ops).balance := by
  induction ops with
  | nil => intro a ha _; simpa [Main.runOps] using ha
  | cons op ops ih =>
    intro a ha hops
    have hop : 0 ≤ op.amount := hops op (List.mem_cons_self op ops)
    have hrest : ∀ o ∈ ops, 0 ≤ o.amount := fun o ho =>
      hops o (List.mem_cons_of_mem op ho)
    cases op with
    | credit amt =>
      refine ih _ ?_ hrest
      simp only [Main.UserAccount.credit, Main.UserAccount.save_transactions]
      have : (0 : ℚ) ≤ amt := hop
      linarith
    | debit amt =>
      by_cases h : amt ≤ a.balance
      · refine ih _ ?_ hrest
        simp only [Main.UserAccount.debit, Main.UserAccount.save_transactions,
          if_pos h]
        linarith
      · simpa [Main.runOps, Main.UserAccount.debit, if_neg h] using ih a ha hrest

/-- The balance after a run on spam_classifier.py's class obeys the same
accounting identity as main.py's. -/
lemma sc_runOps_balance (ops : List Main.Op) :
    ∀ a : SC.UserAccount,
      (SC.runOps a ops).balance =
        a.balance + Main.creditSum ops - Main.succDebitSum a.balance ops := by
  induction ops with
  | nil => intro a; simp [SC.runOps, Main.creditSum, Main.succDebitSum]
  | cons op ops ih =>
    intro a
    cases op with
    | credit amt =>
      simp only [SC.runOps, Main.creditSum, Main.succDebitSum, ih,
        SC.UserAccount.credit]
      ring
    | debit amt =>
      by_cases h : amt ≤ a.balance
      · simp only [SC.runOps, Main.creditSum, Main.succDebitSum, ih,
          SC.UserAccount.debit, if_pos h]
        ring
      · simp only [SC.runOps, Main.creditSum, Main.succDebitSum, ih,
          SC.UserAccount.debit, if_neg h]

/-- With non-negative amounts, a run on spam_classifier.py's class keeps a
non-negative balance non-negative. -/
lemma sc_runOps_balance_nonneg (ops : List Main.Op) :
    ∀ a : SC.UserAccount, 0 ≤ a.balance →
      (∀ op ∈ ops, 0 ≤ op.amount) →
      0 ≤ (SC.runOps a ops).balance := by
  induction ops with
  | nil => intro a ha _; simpa [SC.runOps] using ha
  | cons op ops ih =>
    intro a ha hops
    have hop : 0 ≤ op.amount := hops op (List.mem_cons_self op ops)
    have hrest : ∀ o ∈ ops, 0 ≤ o.amount := fun o ho =>
      hops o (List.mem_cons_of_mem op ho)
    cases op with
    | credit amt =>
      refine ih _ ?_ hrest
      simp only [SC.UserAccount.credit]
      have : (0 : ℚ) ≤ amt := hop
      linarith
    | debit amt =>
      by_cases h : amt ≤ a.balance
      · refine ih _ ?_ hrest
        simp only [SC.UserAccount.debit, if_pos h]
        linarith
      · simpa [SC.runOps, SC.UserAccount.debit, if_neg h] using ih a ha hrest

/-- C9: starting either `UserAccount` class (main.py's and
spam_classifier.py's) from a non-negative balance, any finite sequence of
credits and debits with non-negative amounts leaves the balance non-negative
and equal to the initial balance plus all credited amounts minus the amounts
of the debits whose guard `balance >= amount` held. -/
theorem userAccount_balance_invariant (b0 : ℚ) (csv : Option (List TxnRecord))
    (today : String) (ops : List Main.Op) (h0 : 0 ≤ b0)
    (hops : ∀ op ∈ ops, 0 ≤ op.amount) :
    (0 ≤ (Main.runOps (Main.UserAccount.init b0 csv) today ops).balance ∧
      (Main.runOps (Main.UserAccount.init b0 csv) today ops).balance =
        b0 + Main.creditSum ops - Main.succDebitSum b0 ops) ∧
    (0 ≤ (SC.runOps (SC.UserAccount.init b0) ops).balance ∧
      (SC.runOps (SC.UserAccount.init b0) ops).balance =
        b0 + Main.creditSum ops - Main.succDebitSum b0 ops) := by
  refine ⟨⟨?_, ?_⟩, ?_, ?_⟩
  · exact runOps_balance_nonneg today ops (Main.UserAccount.init b0 csv) h0 hops
  · simpa [Main.UserAccount.init] using
      runOps_balance today ops (Main.UserAccount.init b0 csv)
  · exact sc_runOps_balance_nonneg ops (SC.UserAccount.init b0) h0 hops
  · simpa [SC.UserAccount.init] using
      sc_runOps_balance ops (SC.UserAccount.init b0)

/-- Witness for C9: balance 3, then credit 2, a covered debit 4, and an
uncovered debit 10; the final balance is 3 + 2 - 4 = 1 on both classes. -/
theorem userAccount_balance_invariant_witness :
    (0 : ℚ) ≤ 3 ∧
    (∀ op ∈ [Main.Op.credit 2, Main.Op.debit 4, Main.Op.debit 10],
      0 ≤ op.amount) ∧
    ((0 ≤ (Main.runOps (Main.UserAccount.init 3 none) "2024-01-01"
          [Main.Op.credit 2, Main.Op.debit 4, Main.Op.debit 10]).balance ∧
        (Main.runOps (Main.UserAccount.init 3 none) "2024-01-01"
          [Main.Op.credit 2, Main.Op.debit 4, Main.Op.debit 10]).balance =
          3 + Main.creditSum [Main.Op.credit 2, Main.Op.debit 4, Main.Op.debit 10] -
            Main.succDebitSum 3 [Main.Op.credit 2, Main.Op.debit 4, Main.Op.debit 10]) ∧
      (0 ≤ (SC.runOps (SC.UserAccount.init 3)
          [Main.Op.credit 2, Main.Op.debit 4, Main.Op.debit 10]).balance ∧
        (SC.runOps (SC.UserAccount.init 3)
          [Main.Op.credit 2, Main.Op.debit 4, Main.Op.debit 10]).balance =
          3 + Main.creditSum [Main.Op.credit 2, Main.Op.debit 4, Main.Op.debit 10] -
            Main.succDebitSum 3 [Main.Op.credit 2, Main.Op.debit 4, Main.Op.debit 10])) :=
  ⟨by decide, by decide,
   userAccount_balance_invariant 3 none "2024-01-01"
     [Main.Op.credit 2, Main.Op.debit 4, Main.Op.debit 10] (by decide)
     (by decide)⟩

/-! ## The bill-splitting maps -/

/-- First-occurrence deduplication only keeps elements of the list. -/
lemma pyDedupAux_subset :
    ∀ (l seen : List String) (x : String), x ∈ pyDedupAux seen l → x ∈ l := by
  intro l
  induction l with
  | nil => intro seen x hx; simp [pyDedupAux] at hx
  | cons y ys ih =>
    intro seen x hx
    simp only [pyDedupAux] at hx
    by_cases hy : y ∈ seen
    · simp only [if_pos hy] at hx
      exact List.mem_cons_of_mem y (ih seen x hx)
    · simp only [if_neg hy, List.mem_cons] at hx
      rcases hx with rfl | hx
      · exact List.mem_cons_self x ys
      · exact List.mem_cons_of_mem y (ih (y :: seen) x hx)

/-- Every key of the zero dict is another member of the group. -/
lemma initMemberDict_mem (members : List String) (user : String)
    (kv : String × ℚ) (h : kv ∈ initMemberDict members user) :
    kv.1 ∈ members ∧ kv.1 ≠ user := by
  simp only [initMemberDict, List.mem_map] at h
  obtain ⟨m, hm, rfl⟩ := h
  have hm' := pyDedupAux_subset _ [] m hm
  simp only [List.mem_filter, decide_eq_true_eq] at hm'
  exact hm'

/-- One `calculate_owed_by_group_members` loop step keeps the dict keys. -/
lemma owedStep_keys (user : String) (owed : List (String × ℚ))
    (t : GroupTransaction) :
    (owedStep user owed t).map Prod.fst = owed.map Prod.fst := by
  unfold owedStep
  split_ifs with h1 h2
  · simp [List.map_map, Function.comp]
  · simp only [List.map_map]
    refine List.map_congr_left fun kv _ => ?_
    by_cases hk : kv.1 = t.payer <;> simp [hk, Function.comp]
  · rfl

/-- The whole `calculate_owed_by_group_members` loop keeps the dict keys. -/
lemma foldl_owedStep_keys (user : String) (ts : List GroupTransaction) :
    ∀ owed : List (String × ℚ),
      (ts.foldl (owedStep user) owed).map Prod.fst = owed.map Prod.fst := by
  induction ts with
  | nil => intro owed; rfl
  | cons t ts ih =>
    intro owed
    simpa [List.foldl_cons, owedStep_keys] using
      (ih (owedStep user owed t)).trans (owedStep_keys user owed t)

/-- A `KeyError` in the `calculate_user_debt` loop is never recovered. -/
lemma foldl_debtStep_error (g : GroupData) (user e : String)
    (ts : List GroupTransaction) :
    ts.foldl (debtStep g user) (.error e) = .error e := by
  induction ts with
  | nil => rfl
  | cons t ts ih => simpa [List.foldl_cons, debtStep, Except.bind] using ih

/-- When the `calculate_user_debt` loop finishes without a `KeyError`, it
keeps the dict keys. -/
lemma foldl_debtStep_keys (g : GroupData) (user : String)
    (ts : List GroupTransaction) :
    ∀ (debt res : List (String × ℚ)),
      ts.foldl (debtStep g user) (.ok debt) = .ok res →
      res.map Prod.fst = debt.map Prod.fst := by
  induction ts with
  | nil => intro debt res h; cases h; rfl
  | cons t ts ih =>
    intro debt res h
    simp only [List.foldl_cons] at h
    by_cases hc : t.payer ≠ user ∧ user ∈ g.members
    · by_cases hk : t.payer ∈ debt.map Prod.fst
      · rw [show debtStep g user (.ok debt) t =
            .ok (debt.map fun kv =>
              if kv.1 = t.payer then (kv.1, kv.2 + t.split_amount) else kv) by
            simp [debtStep, Except.bind, hc, hk]] at h
        have := ih _ res h
        rw [this, List.map_map]
        refine List.map_congr_left fun kv _ => ?_
        by_cases hkv : kv.1 = t.payer <;> simp [hkv, Function.comp]
      · rw [show debtStep g user (.ok debt) t = .error "KeyError" by
            simp [debtStep, Except.bind, hc, hk]] at h
        rw [foldl_debtStep_error] at h
        cases h
    · rw [show debtStep g user (.ok debt) t = .ok debt by
          simp [debtStep, Except.bind, hc]] at h
      exact ih _ res h

/-- C10: the owed map and the debt map only carry other group members as
keys, each with a strictly positive amount — zero or negative computed
amounts and the current user never appear (the debt map is considered when
the loop raises no `KeyError`). -/
theorem group_maps_members_positive (g : GroupData) (user : String) :
    (∀ kv ∈ calculate_owed_by_group_members g user,
      kv.1 ∈ g.members ∧ kv.1 ≠ user ∧ 0 < kv.2) ∧
    (∀ res, calculate_user_debt g user = .ok res →
      ∀ kv ∈ res, kv.1 ∈ g.members ∧ kv.1 ≠ user ∧ 0 < kv.2) := by
  constructor
  · intro kv hkv
    simp only [calculate_owed_by_group_members, List.mem_filter,
      decide_eq_true_eq] at hkv
    obtain ⟨hmem, hpos⟩ := hkv
    have hkey : kv.1 ∈ (g.transactions.foldl (owedStep user)
        (initMemberDict g.members user)).map Prod.fst :=
      List.mem_map_of_mem Prod.fst hmem
    rw [foldl_owedStep_keys] at hkey
    obtain ⟨kv', hkv', hfst⟩ := List.mem_map.1 hkey
    have := initMemberDict_mem g.members user kv' hkv'
    exact ⟨hfst ▸ this.1, hfst ▸ this.2, hpos⟩
  · intro res hres kv hkv
    unfold calculate_user_debt at hres
    cases hfold : g.transactions.foldl (debtStep g user)
        (.ok (initMemberDict g.members user)) with
    | error e => rw [hfold] at hres; simp [Except.map] at hres
    | ok d =>
      rw [hfold] at hres
      simp only [Except.map] at hres
      cases hres
      simp only [List.mem_filter, decide_eq_true_eq] at hkv
      obtain ⟨hmem, hpos⟩ := hkv
      have hkey : kv.1 ∈ d.map Prod.fst := List.mem_map_of_mem Prod.fst hmem
      rw [foldl_debtStep_keys g user g.transactions _ d hfold] at hkey
      obtain ⟨kv', hkv', hfst⟩ := List.mem_map.1 hkey
      have := initMemberDict_mem g.members user kv' hkv'
      exact ⟨hfst ▸ this.1, hfst ▸ this.2, hpos⟩

/-- Witness for C10: in a two-member group where alice paid 30 split 10,
bob owes alice 10, and alice appears in bob's debt map with 10. -/
theorem group_maps_members_positive_witness :
    (("bob", (10 : ℚ)) ∈
        calculate_owed_by_group_members
          ⟨["alice", "bob"], [⟨"alice", 30, "food", "2024-01-01", 10⟩]⟩ "alice" ∧
      ("bob" ∈ (["alice", "bob"] : List String) ∧ "bob" ≠ "alice" ∧
        (0 : ℚ) < 10)) ∧
    (calculate_user_debt
        ⟨["alice", "bob"], [⟨"alice", 30, "food", "2024-01-01", 10⟩]⟩ "bob" =
      .ok [("alice", (10 : ℚ))] ∧
      ("alice" ∈ (["alice", "bob"] : List String) ∧ "alice" ≠ "bob" ∧
        (0 : ℚ) < 10)) :=
  ⟨⟨by
      norm_num [calculate_owed_by_group_members, initMemberDict, pyDedup,
        pyDedupAux, owedStep],
    (group_maps_members_positive
        ⟨["alice", "bob"], [⟨"alice", 30, "food", "2024-01-01", 10⟩]⟩
        "alice").1 ("bob", (10 : ℚ))
      (by
        norm_num [calculate_owed_by_group_members, initMemberDict, pyDedup,
          pyDedupAux, owedStep])⟩,
   ⟨by
      norm_num [calculate_user_debt, initMemberDict, pyDedup, pyDedupAux,
        debtStep, Except.bind, Except.map]
      rw [if_neg (by decide : ¬("alice" = "bob"))]
      norm_num,
    (group_maps_members_positive
        ⟨["alice", "bob"], [⟨"alice", 30, "food", "2024-01-01", 10⟩]⟩
        "bob").2 [("alice", (10 : ℚ))]
      (by
        norm_num [calculate_user_debt, initMemberDict, pyDedup, pyDedupAux,
          debtStep, Except.bind, Except.map]
        rw [if_neg (by decide : ¬("alice" = "bob"))]
        norm_num)
      ("alice", (10 : ℚ)) (by decide)⟩⟩
